import Mathlib

/-!
Shallow embedding of the PocketOption dashboard client
(`src/static/js/dashboard.js`): the signal-log store, the rolling chart
buffers, the connection/performance trackers, the render projections and
the event handlers, together with theorems settling the specification
claims about them.

Conventions of the embedding:
* DOM writes are modelled as pure render projections (records of the
  strings the code assigns to `textContent` / `className`);
* the mutable dashboard object is a `DashState` record threaded through
  the handlers;
* JavaScript values that may be `undefined` are modelled with `Option`
  (only where a claim depends on it: `total_profit`, `last_message`);
  a JS `TypeError` (e.g. `undefined.toFixed(2)`) is modelled by the
  render projection returning `none`, and an uncaught exception in a
  push handler by a `crashed` flag;
* numbers are modelled as `Nat` / `Rat`; text as `String`.
-/

namespace Dashboard

/-- Trade direction; the data model restricts `signal.direction` to these
three values (the source compares against the literals `'CALL'`,
`'PUT'`, `'HOLD'`). -/
inductive Direction where
  | CALL
  | PUT
  | HOLD
deriving DecidableEq

/-- The string the source code sees for a direction. -/
def Direction.str : Direction → String
  | .CALL => "CALL"
  | .PUT => "PUT"
  | .HOLD => "HOLD"

/-- A SignalEvent as delivered by `/api/signals` or a `new_signal` push. -/
structure Signal where
  timestamp : Nat
  asset : String
  direction : Direction
  timeframe : String
  confidence : Nat
deriving DecidableEq

/-- `this.connectionStats` (see the constructor, dashboard.js lines 8-13). -/
structure ConnectionStats where
  websocket_connected : Bool
  authenticated : Bool
  last_message : Option String
  message_count : Nat
deriving DecidableEq

/-- `this.performanceData` (constructor lines 14-21).  `total_profit` is
`Option` because a malformed payload may lack the field (claim C3). -/
structure PerformanceData where
  total_signals : Nat
  winning_signals : Nat
  losing_signals : Nat
  total_profit : Option Rat
  active_assets : Nat
  connection_status : String
deriving DecidableEq

/-- A notification badge created by `showNotification(message, type)`. -/
structure Notif where
  message : String
  ntype : String
deriving DecidableEq

/-- The mutable state of the dashboard object plus the DOM state the
handlers mutate: `signals` is `this.signals` (the backing array used by
filter/search/distribution), `container` the children of
`signals-container` (the visible log, newest first), `chartLabels` /
`chartData` the two parallel arrays of the performance chart,
`distData` the dataset of the distribution chart, `notifications` the
notification badges appended to the document, `lastUpdate` the
`last-update` text. -/
structure DashState where
  signals : List Signal
  container : List Signal
  connectionStats : ConnectionStats
  performanceData : PerformanceData
  chartLabels : List String
  chartData : List (Option Rat)
  distData : Nat × Nat × Nat
  notifications : List Notif
  lastUpdate : String
deriving DecidableEq

/-- The state built by the `PocketOptionDashboard` constructor together
with empty chart arrays (`initializeCharts` starts both charts empty). -/
def initState : DashState :=
  { signals := []
    container := []
    connectionStats :=
      { websocket_connected := false
        authenticated := false
        last_message := none
        message_count := 0 }
    performanceData :=
      { total_signals := 0
        winning_signals := 0
        losing_signals := 0
        total_profit := some 0
        active_assets := 0
        connection_status := "disconnected" }
    chartLabels := []
    chartData := []
    distData := (0, 0, 0)
    notifications := []
    lastUpdate := "" }

/-- JavaScript `Number.prototype.toFixed(1)` on the exact rational value:
round to the nearest tenth and print with one decimal digit. -/
def toFixed1 (q : Rat) : String :=
  let n : Int := round (q * 10)
  if n < 0 then "-" ++ toString (n.natAbs / 10) ++ "." ++ toString (n.natAbs % 10)
  else toString (n.toNat / 10) ++ "." ++ toString (n.toNat % 10)

/-- JavaScript `Number.prototype.toFixed(2)` on the exact rational value. -/
def toFixed2 (q : Rat) : String :=
  let n : Int := round (q * 100)
  if n < 0 then
    "-" ++ toString (n.natAbs / 100) ++ "." ++ toString (n.natAbs % 100 / 10)
      ++ toString (n.natAbs % 10)
  else
    toString (n.toNat / 100) ++ "." ++ toString (n.toNat % 100 / 10)
      ++ toString (n.toNat % 10)

/-- JavaScript `String.prototype.toLowerCase` (ASCII model). -/
def lower (s : String) : String := String.mk (s.data.map Char.toLower)

/-- JavaScript `haystack.includes(needle)`: substring containment. -/
def includes (haystack needle : String) : Bool :=
  decide (needle.data <:+: haystack.data)

/-- `showNotification(message, type)` (lines 367-391): appends one badge
to the document (its 3-second auto-removal timer is not modelled). -/
def showNotification (st : DashState) (message : String) (ntype : String) : DashState :=
  { st with notifications := st.notifications ++ [⟨message, ntype⟩] }

/-- Rendered connection panel: the four texts and two class names that
`updateConnectionStatus` assigns. -/
structure ConnRender where
  statusText : String
  statusClass : String
  authText : String
  authClass : String
  msgCountText : String
  lastActivityText : String
deriving DecidableEq

/-- `updateConnectionStatus` (lines 212-239) as a pure projection of
`this.connectionStats`.  `message_count || 0` and
`last_message || 'Never'` keep the JS falsy semantics. -/
def updateConnectionStatus (cs : ConnectionStats) : ConnRender :=
  { statusText := if cs.websocket_connected then "Connected" else "Disconnected"
    statusClass := if cs.websocket_connected then "connected" else "disconnected"
    authText := if cs.authenticated then "Authenticated" else "Not Authenticated"
    authClass := if cs.authenticated then "authenticated" else "not-authenticated"
    msgCountText := toString (if cs.message_count = 0 then 0 else cs.message_count)
    lastActivityText :=
      match cs.last_message with
      | none => "Never"
      | some m => if m = "" then "Never" else m }

/-- Rendered performance panel: the six texts `updatePerformanceStats`
assigns. -/
structure PerfRender where
  totalSignalsText : String
  winningSignalsText : String
  losingSignalsText : String
  totalProfitText : String
  winRateText : String
  activeAssetsText : String
deriving DecidableEq

/-- `updatePerformanceStats` (lines 241-262) as a projection of
`this.performanceData`.  When `total_profit` is absent the line
`total_profit.toFixed(2)` throws a `TypeError`, modelled by `none`.
The win rate is `total_signals > 0 ? ((winning/total)*100).toFixed(1) : 0`
interpolated into a percent string; it is computed here, at render
time, and stored nowhere in `DashState`. -/
def updatePerformanceStats (pd : PerformanceData) : Option PerfRender :=
  match pd.total_profit with
  | none => none
  | some p =>
    some
      { totalSignalsText := toString pd.total_signals
        winningSignalsText := toString pd.winning_signals
        losingSignalsText := toString pd.losing_signals
        totalProfitText := "$" ++ toFixed2 p
        winRateText :=
          (if pd.total_signals > 0 then
            toFixed1 ((pd.winning_signals : Rat) / (pd.total_signals : Rat) * 100)
          else "0") ++ "%"
        activeAssetsText := toString (if pd.active_assets = 0 then 0 else pd.active_assets) }

/-- The distribution-chart dataset computed in `updateCharts`
(lines 281-285): `this.signals.filter(s => s.direction === dir).length`
for the three directions. -/
def distributionCounts (sigs : List Signal) : Nat × Nat × Nat :=
  ((sigs.filter fun s => decide (s.direction = Direction.CALL)).length,
   (sigs.filter fun s => decide (s.direction = Direction.PUT)).length,
   (sigs.filter fun s => decide (s.direction = Direction.HOLD)).length)

/-- `updateCharts` (lines 264-288): pushes the current time label and
`this.performanceData.total_profit` onto the two parallel chart arrays,
shifts both off the front when `labels.length` exceeds 20, and
recomputes the distribution dataset from `this.signals`. -/
def updateCharts (st : DashState) (lbl : String) : DashState :=
  let ls := st.chartLabels ++ [lbl]
  let ds := st.chartData ++ [st.performanceData.total_profit]
  { st with
    chartLabels := if ls.length > 20 then ls.tail else ls
    chartData := if ls.length > 20 then ds.tail else ds
    distData := distributionCounts st.signals }

/-- The generic bounded-window step realized by the chart arrays in
`updateCharts`: append one element, and if the length now exceeds 20
remove the oldest (front) element. -/
def rwPush {α : Type} (buf : List α) (p : α) : List α :=
  let b := buf ++ [p]
  if b.length > 20 then b.tail else b

/-- Reading the buffer (the chart library reads `data` in place):
returns the sequence oldest-first together with the unchanged
post-state. -/
def rwSnapshot {α : Type} (buf : List α) : List α × List α := (buf, buf)

/-- The visible-log insertion inside `addSignalToUI` (lines 296-301):
`insertBefore(el, firstChild)` puts the new signal at the head; if the
child count then exceeds 20, `removeChild(lastChild)` evicts the tail. -/
def insertCapped (container : List Signal) (s : Signal) : List Signal :=
  let c := s :: container
  if c.length > 20 then c.dropLast else c

/-- `updateLastUpdateTime` (lines 360-365): writes the current time
label to the `last-update` element. -/
def updateLastUpdateTime (st : DashState) (lbl : String) : DashState :=
  { st with lastUpdate := lbl }

/-- `addSignalToUI(signal)` (lines 290-304): head-inserts into the
visible container with capacity trimming, then refreshes the
last-update label.  It does not touch `this.signals`. -/
def addSignalToUI (st : DashState) (sig : Signal) (lbl : String) : DashState :=
  updateLastUpdateTime { st with container := insertCapped st.container sig } lbl

/-- `displaySignals(signals)` (lines 330-340): clears the container and
re-renders exactly the given list, in order. -/
def displaySignals (st : DashState) (sigs : List Signal) : DashState :=
  { st with container := sigs }

/-- `filterSignals(asset)` (lines 342-348), list part: `'all'` keeps the
whole backing array, otherwise keep the signals whose asset is exactly
`asset`. -/
def filterSignals (asset : String) (sigs : List Signal) : List Signal :=
  if asset = "all" then sigs else sigs.filter fun s => decide (s.asset = asset)

/-- `searchSignals(query)` (lines 350-358), list part: keep a signal when
the lowercased query occurs in the lowercased asset, or in the
lowercased direction, or the raw query occurs in the timeframe. -/
def searchSignals (query : String) (sigs : List Signal) : List Signal :=
  sigs.filter fun s =>
    includes (lower s.asset) (lower query) ||
    includes (lower s.direction.str) (lower query) ||
    includes s.timeframe query

/-- The `change` handler of the asset filter (lines 171-176): renders
the filtered projection of `this.signals`. -/
def onFilter (st : DashState) (asset : String) : DashState :=
  displaySignals st (filterSignals asset st.signals)

/-- The `input` handler of the search box (lines 178-184): renders the
searched projection of `this.signals`. -/
def onSearch (st : DashState) (query : String) : DashState :=
  displaySignals st (searchSignals query st.signals)

/-- The `connection_update` push handler (lines 131-134): stores the
payload wholesale (then re-renders the connection panel, a pure
projection with no state effect). -/
def onConnectionUpdate (st : DashState) (stats : ConnectionStats) : DashState :=
  { st with connectionStats := stats }

/-- Result of a push handler that may throw: the state at the point the
exception (if any) escaped, and whether one escaped. -/
structure PushResult where
  state : DashState
  crashed : Bool
deriving DecidableEq

/-- The `performance_update` push handler (lines 137-141): assigns
`this.performanceData = data`, then runs `updatePerformanceStats` —
which throws on a payload without `total_profit`, aborting the handler
with the malformed payload already stored — then `updateCharts`. -/
def onPerformanceUpdate (st : DashState) (data : PerformanceData) (lbl : String) :
    PushResult :=
  let st1 := { st with performanceData := data }
  match updatePerformanceStats data with
  | none => ⟨st1, true⟩
  | some _ => ⟨updateCharts st1 lbl, false⟩

/-- The `new_signal` push handler (lines 144-147): `addSignalToUI` then a
success notification.  It neither appends to `this.signals` nor calls
`updateCharts`. -/
def onNewSignal (st : DashState) (sig : Signal) (lbl : String) : DashState :=
  showNotification (addSignalToUI st sig lbl)
    ("New " ++ sig.direction.str ++ " signal for " ++ sig.asset) "success"

/-- The catch branch of `loadInitialData` (lines 206-209). -/
def showErrorLoading (st : DashState) : DashState :=
  showNotification st "Error loading data" "error"

/-- `loadInitialData` (lines 187-210).  The three fetches run
sequentially inside one `try`; `none` models a rejected request.  Each
snapshot is assigned to state as soon as it arrives, so a later failure
jumps to the single catch with the earlier assignments already applied.
A malformed performance snapshot (no `total_profit`) makes
`updatePerformanceStats` throw, which the same catch absorbs.  The
function is total: no failure escapes (the catch raises exactly one
error notification). -/
def loadInitialData (st : DashState) (sigResp : Option (List Signal))
    (perfResp : Option PerformanceData) (connResp : Option ConnectionStats)
    (lbl : String) : DashState :=
  match sigResp with
  | none => showErrorLoading st
  | some sigs =>
    let st1 := displaySignals { st with signals := sigs } sigs
    match perfResp with
    | none => showErrorLoading st1
    | some pd =>
      let st2 := { st1 with performanceData := pd }
      match updatePerformanceStats pd with
      | none => showErrorLoading st2
      | some _ =>
        match connResp with
        | none => showErrorLoading st2
        | some cs => updateCharts { st2 with connectionStats := cs } lbl

/-! Concrete payloads used by counterexamples and witnesses. -/

/-- A CALL signal like the one in the spec's end-to-end scenario. -/
def callSig : Signal := ⟨0, "EURUSD", Direction.CALL, "1m", 87⟩

/-- A PUT signal on a different asset. -/
def sigGBP : Signal := ⟨1, "GBPUSD", Direction.PUT, "5m", 60⟩

/-- A well-formed performance snapshot: 10 signals, 6 winning. -/
def pd10 : PerformanceData := ⟨10, 6, 4, some 0, 2, "connected"⟩

/-- A well-formed performance snapshot with no signals yet. -/
def pd0 : PerformanceData := ⟨0, 0, 0, some 0, 0, "disconnected"⟩

/-- A malformed performance payload: `total_profit` absent. -/
def pdBad : PerformanceData := ⟨5, 3, 2, none, 1, "connected"⟩

/-! Helper lemmas. -/

theorem decide_or3 (A B C : Prop) [Decidable A] [Decidable B] [Decidable C] :
    decide (A ∨ B ∨ C) = (decide A || decide B || decide C) := by
  by_cases hA : A <;> by_cases hB : B <;> by_cases hC : C <;> simp [hA, hB, hC]

theorem nil_isInf (l : List Char) : [] <:+: l := ⟨[], l, by simp⟩

theorem take_append_take {α : Type} (n : Nat) (a c : List α) :
    (a ++ c.take n).take n = (a ++ c).take n := by
  rw [List.take_append_eq_append_take, List.take_append_eq_append_take, List.take_take,
    min_eq_left (Nat.sub_le n a.length)]

theorem insertCapped_eq_take (l : List Signal) (s : Signal) (h : l.length ≤ 20) :
    insertCapped l s = (s :: l).take 20 := by
  simp only [insertCapped]
  by_cases h20 : (s :: l).length > 20
  · rw [if_pos h20, List.dropLast_eq_take]
    have he : (s :: l).length - 1 = 20 := by simp at h20 ⊢; omega
    rw [he]
  · rw [if_neg h20, List.take_of_length_le (Nat.le_of_not_lt h20)]

theorem foldl_insertCapped (es : List Signal) :
    ∀ l : List Signal, l.length ≤ 20 →
      es.foldl insertCapped l = (es.reverse ++ l).take 20 := by
  induction es with
  | nil =>
    intro l h
    simpa using (List.take_of_length_le h).symm
  | cons e es ih =>
    intro l h
    have h1 : (insertCapped l e).length ≤ 20 := by
      rw [insertCapped_eq_take l e h, List.length_take]
      omega
    rw [List.foldl_cons, ih _ h1, insertCapped_eq_take l e h, take_append_take,
      List.reverse_cons, List.append_assoc, List.singleton_append]

theorem rwPush_length_le {α : Type} (b : List α) (p : α) (h : b.length ≤ 20) :
    (rwPush b p).length ≤ 20 := by
  simp only [rwPush]
  split
  next hc => simp; omega
  next hc => simp at hc ⊢; omega

theorem foldl_rwPush {α : Type} (ps : List α) :
    ∀ b : List α, b.length ≤ 20 →
      ps.foldl rwPush b = (b ++ ps).drop ((b ++ ps).length - 20) := by
  induction ps with
  | nil =>
    intro b h
    have hz : b.length - 20 = 0 := by omega
    simp [hz]
  | cons p ps ih =>
    intro b h
    rw [List.foldl_cons, ih _ (rwPush_length_le b p h)]
    by_cases hb : b.length = 20
    · have hcond : (b ++ [p]).length > 20 := by simp [hb]
      cases b with
      | nil => simp at hb
      | cons a b' =>
        have hb' : b'.length = 19 := by simp at hb; omega
        have hr : rwPush (a :: b') p = b' ++ [p] := by
          simp only [rwPush]
          rw [if_pos hcond]
          simp
        rw [hr]
        have e1 : ((b' ++ [p]) ++ ps).length - 20 = ps.length := by
          simp [hb']
          omega
        have e2 : ((a :: b') ++ p :: ps).length - 20 = ps.length + 1 := by
          simp [hb']
        rw [e1, e2, List.cons_append, List.drop_succ_cons, List.append_assoc,
          List.singleton_append]
    · have hcond : ¬ (b ++ [p]).length > 20 := by simp; omega
      have hr : rwPush b p = b ++ [p] := by
        simp only [rwPush]
        rw [if_neg hcond]
      rw [hr, List.append_assoc, List.singleton_append]

theorem updateCharts_arrays (st : DashState) (lbl : String)
    (h : st.chartLabels.length = st.chartData.length) :
    (updateCharts st lbl).chartData = rwPush st.chartData st.performanceData.total_profit ∧
    (updateCharts st lbl).chartLabels = rwPush st.chartLabels lbl := by
  simp only [updateCharts, rwPush]
  constructor
  · by_cases hc : (st.chartLabels ++ [lbl]).length > 20
    · rw [if_pos hc, if_pos (by simp at hc ⊢; omega)]
    · rw [if_neg hc, if_neg (by simp at hc ⊢; omega)]
  · trivial

theorem distributionCounts_sum (sigs : List Signal) :
    (distributionCounts sigs).1 + (distributionCounts sigs).2.1 +
      (distributionCounts sigs).2.2 = sigs.length := by
  induction sigs with
  | nil => rfl
  | cons s sigs ih =>
    cases hd : s.direction <;> simp [distributionCounts, hd] at ih ⊢ <;> omega

/-! Claim theorems. -/

/-- Claim C1, counterexample: pushing twenty-one CALL `new_signal` events
into the freshly constructed dashboard leaves `this.signals` — the
backing history the distribution counts are computed from — empty, so
the per-direction counts are `(0, 0, 0)`, not `(21, 0, 0)` as the claim
states: the `new_signal` handler only inserts into the visible DOM log
and never appends to the backing history. -/
theorem c1_counterexample :
    distributionCounts
        (((List.replicate 21 callSig).foldl (fun st s => onNewSignal st s "t") initState).signals)
      = (0, 0, 0) ∧
    distributionCounts
        (((List.replicate 21 callSig).foldl (fun st s => onNewSignal st s "t") initState).signals)
      ≠ (21, 0, 0) := by
  constructor
  · decide
  · decide

/-- Claim C1, amended: recording a `new_signal` event does NOT append to
the backing history `this.signals` (it only mutates the visible DOM log
and the notifications), so the distribution counts are unchanged by
pushes; the second part of the claim — for every log the sum of the
three per-direction counts equals the backing-history length — does
hold. -/
theorem c1_amended :
    (∀ (st : DashState) (sig : Signal) (lbl : String),
        (onNewSignal st sig lbl).signals = st.signals) ∧
    ∀ sigs : List Signal,
      (distributionCounts sigs).1 + (distributionCounts sigs).2.1 +
        (distributionCounts sigs).2.2 = sigs.length :=
  ⟨fun _ _ _ => rfl, distributionCounts_sum⟩

/-- Claim C2, counterexample: a refresh pull in which the signals request
succeeds (with an empty list) and the performance request fails leaves
the signal log replaced, not unchanged — `loadInitialData` assigns each
snapshot as soon as it arrives, so a later failure does not roll back
earlier assignments. -/
theorem c2_counterexample :
    (loadInitialData { initState with signals := [callSig] } (some []) none none "t").signals
      ≠ ({ initState with signals := [callSig] } : DashState).signals := by
  decide

/-- Claim C2, amended: a failed pull is atomic per request, not per
operation: state assigned by requests that completed before the failing
one persists (signal log first, then performance, then connection, in
program order), state from the failing request onward is unchanged,
exactly one error notification is raised (`showErrorLoading` appends
exactly one badge with type `error`), and no failure escapes
(`loadInitialData` is total). -/
theorem c2_amended (st : DashState) (sigs : List Signal) (pd : PerformanceData)
    (perfResp : Option PerformanceData) (connResp : Option ConnectionStats) (lbl : String) :
    loadInitialData st none perfResp connResp lbl = showErrorLoading st ∧
    loadInitialData st (some sigs) none connResp lbl
      = showErrorLoading { st with signals := sigs, container := sigs } ∧
    ((updatePerformanceStats pd).isSome = true →
      loadInitialData st (some sigs) (some pd) none lbl
        = showErrorLoading
            { st with signals := sigs, container := sigs, performanceData := pd }) := by
  refine ⟨rfl, rfl, ?_⟩
  intro h
  cases hu : updatePerformanceStats pd with
  | none => rw [hu] at h; simp at h
  | some r => simp [loadInitialData, displaySignals, hu]

/-- Claim C2, witness for the amended theorem at a concrete failing
pull: signals succeed with `[]`, performance succeeds, connection
fails. -/
theorem c2_witness :
    loadInitialData initState (some []) (some pd10) none "t"
      = showErrorLoading
          { initState with signals := [], container := [], performanceData := pd10 } :=
  (c2_amended initState [] pd10 none none "t").2.2 (by decide)

/-- Claim C3, counterexample: a `performance_update` push whose payload
lacks `total_profit` crashes the handler (the `TypeError` from
`total_profit.toFixed(2)` is uncaught), the malformed payload has
already replaced the prior snapshot when the crash happens, and no
error notification is raised — the opposite of all three guarantees in
the claim. -/
theorem c3_counterexample :
    (onPerformanceUpdate initState pdBad "t").crashed = true ∧
    (onPerformanceUpdate initState pdBad "t").state.performanceData = pdBad ∧
    (onPerformanceUpdate initState pdBad "t").state.performanceData
      ≠ initState.performanceData ∧
    (onPerformanceUpdate initState pdBad "t").state.notifications
      = initState.notifications := by
  refine ⟨rfl, rfl, ?_, rfl⟩
  decide

/-- Claim C3, amended: processing a push performance update whose
`total_profit` field is absent does crash the core: the malformed
payload is accepted into state (the prior snapshot is lost) before the
render step throws, and no error notification is raised. -/
theorem c3_amended (st : DashState) (data : PerformanceData) (lbl : String)
    (h : data.total_profit = none) :
    onPerformanceUpdate st data lbl = ⟨{ st with performanceData := data }, true⟩ := by
  simp [onPerformanceUpdate, updatePerformanceStats, h]

/-- Claim C3, witness for the amended theorem at the concrete malformed
payload. -/
theorem c3_witness :
    onPerformanceUpdate initState pdBad "t"
      = ⟨{ initState with performanceData := pdBad }, true⟩ :=
  c3_amended initState pdBad "t" rfl

/-- Claim C4: the visible signal log is a bounded newest-first sequence
of capacity 20 — after any sequence of recordings starting from the
empty container, the visible log is exactly the most recent 20 events
newest-first (`take 20` of the reversed push order) and its length is
`min N 20`; and the `new_signal` handler updates the container exactly
by this capped head insertion. -/
theorem c4_visible_log_bounded :
    (∀ es : List Signal,
        es.foldl insertCapped [] = es.reverse.take 20 ∧
        (es.foldl insertCapped []).length = min es.length 20) ∧
    ∀ (st : DashState) (sig : Signal) (lbl : String),
      (onNewSignal st sig lbl).container = insertCapped st.container sig := by
  refine ⟨?_, fun _ _ _ => rfl⟩
  intro es
  have h := foldl_insertCapped es [] (by simp)
  rw [List.append_nil] at h
  refine ⟨h, ?_⟩
  rw [h, List.length_take, List.length_reverse]
  omega

/-- Claim C5: the rolling window buffer realized by the chart arrays in
`updateCharts`: starting empty, after any N pushes the buffer holds
exactly the last `min N 20` pushed values in push order (the `drop` of
all but the last 20) and `snapshot` returns that sequence oldest-first
without mutating the buffer; moreover `updateCharts` performs exactly
this `rwPush` step on both parallel arrays. -/
theorem c5_rolling_window :
    (∀ {α : Type} (ps : List α),
        (ps.foldl rwPush []).length = min ps.length 20 ∧
        ps.foldl rwPush [] = ps.drop (ps.length - 20) ∧
        (rwSnapshot (ps.foldl rwPush [])).1 = ps.foldl rwPush [] ∧
        (rwSnapshot (ps.foldl rwPush [])).2 = ps.foldl rwPush []) ∧
    ∀ (st : DashState) (lbl : String),
      st.chartLabels.length = st.chartData.length →
      (updateCharts st lbl).chartData
        = rwPush st.chartData st.performanceData.total_profit := by
  constructor
  · intro α ps
    have h := foldl_rwPush ps [] (by simp)
    rw [List.nil_append] at h
    refine ⟨?_, h, rfl, rfl⟩
    rw [h, List.length_drop]
    omega
  · intro st lbl hlen
    exact (updateCharts_arrays st lbl hlen).1

/-- Claim C5, witness: the theorem applied to a concrete run of 21
pushes and to a concrete state with aligned chart arrays. -/
theorem c5_witness :
    ((List.replicate 21 (some (0 : Rat))).foldl rwPush []
        = (List.replicate 21 (some (0 : Rat))).drop 1) ∧
    (updateCharts initState "t").chartData
      = rwPush initState.chartData initState.performanceData.total_profit :=
  ⟨(c5_rolling_window.1 (List.replicate 21 (some (0 : Rat)))).2.1,
   c5_rolling_window.2 initState "t" rfl⟩

/-- Win-rate text as the spec words it: `winningSignals / totalSignals × 100`
rendered to one decimal place, defined as `0` (rendered `0%`) when
`totalSignals = 0`.  Stated separately from the source-derived
`updatePerformanceStats` so the two can be compared. -/
def specWinRateText (winning total : Nat) : String :=
  if total > 0 then toFixed1 ((winning : Rat) / (total : Rat) * 100) ++ "%" else "0%"

/-- Claim C6: for every well-formed snapshot (one whose `total_profit`
is present, as the data model requires) the rendered win rate equals
the spec formula — `winningSignals / totalSignals × 100` to one decimal
place, `0%` when `totalSignals = 0`; concretely 10 total / 6 winning
renders `60.0%` and an empty snapshot renders `0%`.  The value is a
pure render-time projection of the snapshot: `DashState` stores no win
rate field. -/
theorem c6_win_rate :
    (∀ (pd : PerformanceData) (p : Rat), pd.total_profit = some p →
        ∃ r, updatePerformanceStats pd = some r ∧
          r.winRateText = specWinRateText pd.winning_signals pd.total_signals) ∧
    Option.map PerfRender.winRateText (updatePerformanceStats pd10) = some "60.0%" ∧
    Option.map PerfRender.winRateText (updatePerformanceStats pd0) = some "0%" := by
  refine ⟨?_, ?_, ?_⟩
  · intro pd p hp
    simp only [updatePerformanceStats, hp]
    refine ⟨_, rfl, ?_⟩
    simp only [specWinRateText]
    by_cases h : pd.total_signals > 0 <;> simp [h]
  · have hr600 : round ((6 : Rat) / 10 * 100 * 10) = 600 := by
      rw [round_eq]
      norm_num
    simp only [pd10, updatePerformanceStats, Option.map, toFixed1, Nat.cast_ofNat, hr600]
    decide
  · simp only [pd0, updatePerformanceStats, Option.map]
    decide

/-- Claim C6, witness for the quantified part at the concrete
10-total / 6-winning snapshot. -/
theorem c6_witness :
    ∃ r, updatePerformanceStats pd10 = some r ∧
      r.winRateText = specWinRateText pd10.winning_signals pd10.total_signals :=
  c6_win_rate.1 pd10 0 rfl

/-- Search predicate as the spec words it: the query is a
case-insensitive substring of the asset, or a case-insensitive
substring of the direction, or a case-sensitive substring of the
timeframe. -/
def specSearchMatch (query : String) (s : Signal) : Prop :=
  (lower query).data <:+: (lower s.asset).data ∨
  (lower query).data <:+: (lower s.direction.str).data ∨
  query.data <:+: s.timeframe.data

instance (query : String) (s : Signal) : Decidable (specSearchMatch query s) := by
  unfold specSearchMatch
  exact inferInstance

theorem searchMatch_decide (query : String) (s : Signal) :
    (includes (lower s.asset) (lower query) ||
     includes (lower s.direction.str) (lower query) ||
     includes s.timeframe query) = decide (specSearchMatch query s) := by
  by_cases hm : specSearchMatch query s
  · rw [decide_eq_true hm]
    rcases hm with h | h | h
    · simp [includes, h]
    · simp [includes, h]
    · simp [includes, h]
  · rw [decide_eq_false hm]
    simp only [specSearchMatch] at hm
    push_neg at hm
    simp [includes, hm.1, hm.2.1, hm.2.2]

/-- Claim C7: `search(query)` keeps exactly the events matching the
spec predicate (any of the three fields suffices), the empty query
returns the full sequence, and searching never mutates the backing
log. -/
theorem c7_search :
    (∀ (query : String) (sigs : List Signal),
        searchSignals query sigs = sigs.filter fun s => decide (specSearchMatch query s)) ∧
    (∀ sigs : List Signal, searchSignals "" sigs = sigs) ∧
    ∀ (st : DashState) (query : String), (onSearch st query).signals = st.signals := by
  refine ⟨?_, ?_, fun _ _ => rfl⟩
  · intro query sigs
    apply List.filter_congr
    intro s _
    exact searchMatch_decide query s
  · intro sigs
    simp only [searchSignals]
    rw [List.filter_eq_self]
    intro s _
    have h0 : (lower "").data = [] := rfl
    simp [includes, h0, nil_isInf]

/-- Claim C8: `filterByAsset("all")` is the identity, filtering by an
asset value `x` (any string other than the `"all"` sentinel) keeps only
events whose asset is exactly `x`, filtering is idempotent, and
filtering never mutates the backing log. -/
theorem c8_filter :
    (∀ sigs : List Signal, filterSignals "all" sigs = sigs) ∧
    (∀ (x : String) (sigs : List Signal), x ≠ "all" →
        ∀ s ∈ filterSignals x sigs, s.asset = x) ∧
    (∀ (x : String) (sigs : List Signal),
        filterSignals x (filterSignals x sigs) = filterSignals x sigs) ∧
    ∀ (st : DashState) (x : String), (onFilter st x).signals = st.signals := by
  refine ⟨fun sigs => by simp [filterSignals], ?_, ?_, fun _ _ => rfl⟩
  · intro x sigs hx s hs
    simp [filterSignals, hx] at hs
    exact hs.2
  · intro x sigs
    by_cases hx : x = "all"
    · simp [filterSignals, hx]
    · simp only [filterSignals, if_neg hx]
      rw [List.filter_filter]
      simp

/-- Claim C8, witness: filtering a concrete two-asset log by
`"EURUSD"` keeps only the EURUSD signal. -/
theorem c8_witness :
    callSig.asset = "EURUSD" :=
  c8_filter.2.1 "EURUSD" [callSig, sigGBP] (by decide) callSig (by decide)

/-- Claim C9: applying the same `connection_update` payload twice is
idempotent — the tracked state after the second application equals the
state after the first, the rendered connection panel (status,
authentication, message count, last activity) is identical both times,
and nothing is double-counted: the tracked record is the payload
itself, wholesale. -/
theorem c9_idempotent (st : DashState) (stats : ConnectionStats) :
    onConnectionUpdate (onConnectionUpdate st stats) stats = onConnectionUpdate st stats ∧
    updateConnectionStatus (onConnectionUpdate (onConnectionUpdate st stats) stats).connectionStats
      = updateConnectionStatus (onConnectionUpdate st stats).connectionStats ∧
    (onConnectionUpdate st stats).connectionStats = stats :=
  ⟨rfl, rfl, rfl⟩

/-- Claim C10, counterexample: a refresh in which the signals and
performance requests succeed but the connection request fails applies a
performance update (the snapshot is replaced) yet appends no
MetricPoint to the rolling buffer — the exception jumps to the catch
before `updateCharts` runs — so a point is not appended "exactly once
per performance update applied". -/
theorem c10_counterexample :
    (loadInitialData initState (some []) (some pd10) none "t").performanceData = pd10 ∧
    pd10 ≠ initState.performanceData ∧
    (loadInitialData initState (some []) (some pd10) none "t").chartData
      = initState.chartData := by
  refine ⟨rfl, ?_, rfl⟩
  decide

/-- Claim C10, amended: one MetricPoint `(time label, total_profit)` is
appended per well-formed `performance_update` push and per fully
successful refresh pull, and from no other trigger (not the minute
tick, not a `new_signal`); but a refresh that fails after the
performance snapshot was applied (connection request rejected) applies
a performance update without appending a point, so the correspondence
is not exact. -/
theorem c10_amended :
    (∀ (st : DashState) (data : PerformanceData) (lbl : String) (p : Rat),
        st.chartLabels.length = st.chartData.length →
        data.total_profit = some p →
        (onPerformanceUpdate st data lbl).crashed = false ∧
        (onPerformanceUpdate st data lbl).state.chartData = rwPush st.chartData (some p)) ∧
    (∀ (st : DashState) (sigs : List Signal) (pd : PerformanceData)
        (cs : ConnectionStats) (lbl : String),
        st.chartLabels.length = st.chartData.length →
        (updatePerformanceStats pd).isSome = true →
        (loadInitialData st (some sigs) (some pd) (some cs) lbl).chartData
          = rwPush st.chartData pd.total_profit) ∧
    (∀ (st : DashState) (sigs : List Signal) (pd : PerformanceData) (lbl : String),
        (updatePerformanceStats pd).isSome = true →
        (loadInitialData st (some sigs) (some pd) none lbl).chartData = st.chartData ∧
        (loadInitialData st (some sigs) (some pd) none lbl).performanceData = pd) ∧
    (∀ (st : DashState) (lbl : String), (updateLastUpdateTime st lbl).chartData = st.chartData) ∧
    ∀ (st : DashState) (sig : Signal) (lbl : String),
      (onNewSignal st sig lbl).chartData = st.chartData := by
  refine ⟨?_, ?_, ?_, fun _ _ => rfl, fun _ _ _ => rfl⟩
  · intro st data lbl p hlen hp
    have hcr : onPerformanceUpdate st data lbl
        = ⟨updateCharts { st with performanceData := data } lbl, false⟩ := by
      simp [onPerformanceUpdate, updatePerformanceStats, hp]
    rw [hcr]
    refine ⟨rfl, ?_⟩
    rw [(updateCharts_arrays { st with performanceData := data } lbl hlen).1]
    simp [hp]
  · intro st sigs pd cs lbl hlen h
    cases hu : updatePerformanceStats pd with
    | none => rw [hu] at h; simp at h
    | some r =>
      simp only [loadInitialData, displaySignals, hu]
      have hl : ({ st with signals := sigs, container := sigs, performanceData := pd, connectionStats := cs } : DashState).chartLabels.length = ({ st with signals := sigs, container := sigs, performanceData := pd, connectionStats := cs } : DashState).chartData.length := hlen
      exact (updateCharts_arrays _ lbl hl).1
  · intro st sigs pd lbl h
    cases hu : updatePerformanceStats pd with
    | none => rw [hu] at h; simp at h
    | some r => simp [loadInitialData, displaySignals, hu, showErrorLoading, showNotification]

/-- Claim C10, witness for the amended theorem: a concrete well-formed
push appends exactly one point, and a concrete partial-failure refresh
applies the snapshot without appending. -/
theorem c10_witness :
    ((onPerformanceUpdate initState pd10 "t").crashed = false ∧
      (onPerformanceUpdate initState pd10 "t").state.chartData
        = rwPush initState.chartData (some 0)) ∧
    (loadInitialData initState (some []) (some pd10) none "t").chartData
        = initState.chartData ∧
    (loadInitialData initState (some []) (some pd10) none "t").performanceData = pd10 :=
  ⟨c10_amended.1 initState pd10 "t" 0 rfl rfl,
   c10_amended.2.2.1 initState [] pd10 "t" (by decide)⟩

end Dashboard
